import Mathlib

/-!
# Aurora Serverless v1 (MySQL) stack builder

Shallow embedding of `rds/aurora/mysql/serverless-v1/rds.go`:
`getACUFromInt` and `NewRDSStack`.

Conventions of the embedding

* A Go `string` is a Lean `String`; the only byte the program looks for is the
  colon, which never occurs inside a multi-byte UTF-8 sequence.
* A Go `int` is a Lean `Int` (the program does no arithmetic on it).
* `logrus.Fatalf` logs its message and exits the process; a nil-pointer
  dereference panics.  Both end the run, which is the `Except.error` result
  of the embedded function.
* The CDK library and the shared `rds` / `common` helper packages are outside
  the file.  Each constructor records the construct it is asked for in the
  stack and hands back a handle holding the arguments of the call.  The
  attribute strings the library resolves for the constructed objects are
  inputs of the run (`External`).
* `NewRDSStack` is the builder with every library call taken as succeeding:
  its only failures are the builder's own.  `Checked.NewRDSStack` is the same
  builder with the library's argument checks on the auto-pause duration and
  on the scaling options: `awscdk.Duration_Minutes` panics on a negative
  amount, and `awsrds.NewServerlessCluster` panics when the minimum capacity
  exceeds the maximum or the auto-pause time is neither zero nor between
  5 minutes and 1 day.  A library exception reaches the Go program as a
  panic.  Every run that completes under the checks completes without them,
  with the same stack (`checked_ok_unchecked`), so what is proved of every
  completed run of `NewRDSStack` holds of every completed run under the
  checks.
-/

namespace RDS

/-! ## Ways in which a run ends abnormally -/

/-- How a run of the program ends when it does not return. -/
inductive Failure where
  /-- `logrus.Fatalf`: the message is logged and the process exits. -/
  | fatal (msg : String)
  /-- Go runtime panic on reading a field through a nil pointer. -/
  | nilPointerDereference
  /-- Panic raised by a library call that rejects its arguments. -/
  | libraryPanic (msg : String)
deriving DecidableEq, Repr

deriving instance DecidableEq for Except

/-! ## `awsrds.AuroraCapacityUnit` -/

/-- The library type `awsrds.AuroraCapacityUnit` is a Go string type. -/
abbrev AuroraCapacityUnit := String

/-- Library constant `awsrds.AuroraCapacityUnit_ACU_1`. -/
def AuroraCapacityUnit_ACU_1 : AuroraCapacityUnit := "ACU_1"
/-- Library constant `awsrds.AuroraCapacityUnit_ACU_2`. -/
def AuroraCapacityUnit_ACU_2 : AuroraCapacityUnit := "ACU_2"
/-- Library constant `awsrds.AuroraCapacityUnit_ACU_4`. -/
def AuroraCapacityUnit_ACU_4 : AuroraCapacityUnit := "ACU_4"
/-- Library constant `awsrds.AuroraCapacityUnit_ACU_8`. -/
def AuroraCapacityUnit_ACU_8 : AuroraCapacityUnit := "ACU_8"
/-- Library constant `awsrds.AuroraCapacityUnit_ACU_16`. -/
def AuroraCapacityUnit_ACU_16 : AuroraCapacityUnit := "ACU_16"
/-- Library constant `awsrds.AuroraCapacityUnit_ACU_32`. -/
def AuroraCapacityUnit_ACU_32 : AuroraCapacityUnit := "ACU_32"
/-- Library constant `awsrds.AuroraCapacityUnit_ACU_64`. -/
def AuroraCapacityUnit_ACU_64 : AuroraCapacityUnit := "ACU_64"
/-- Library constant `awsrds.AuroraCapacityUnit_ACU_128`. -/
def AuroraCapacityUnit_ACU_128 : AuroraCapacityUnit := "ACU_128"
/-- Library constant `awsrds.AuroraCapacityUnit_ACU_256`. -/
def AuroraCapacityUnit_ACU_256 : AuroraCapacityUnit := "ACU_256"
/-- Library constant `awsrds.AuroraCapacityUnit_ACU_384`. -/
def AuroraCapacityUnit_ACU_384 : AuroraCapacityUnit := "ACU_384"

/-- The function `getACUFromInt` (rds.go, lines 90-116): a switch over the
ten capacity values; the default branch calls `logrus.Fatalf`, which ends
the process, so the trailing `return ""` is never reached. -/
def getACUFromInt (i : Int) : Except Failure AuroraCapacityUnit :=
  if i = 1 then .ok AuroraCapacityUnit_ACU_1
  else if i = 2 then .ok AuroraCapacityUnit_ACU_2
  else if i = 4 then .ok AuroraCapacityUnit_ACU_4
  else if i = 8 then .ok AuroraCapacityUnit_ACU_8
  else if i = 16 then .ok AuroraCapacityUnit_ACU_16
  else if i = 32 then .ok AuroraCapacityUnit_ACU_32
  else if i = 64 then .ok AuroraCapacityUnit_ACU_64
  else if i = 128 then .ok AuroraCapacityUnit_ACU_128
  else if i = 256 then .ok AuroraCapacityUnit_ACU_256
  else if i = 384 then .ok AuroraCapacityUnit_ACU_384
  else .error (.fatal
    ("invalid ACU request must be 1, 2, 4, 8, 16, 32, 64, 128, 256, 384. Passed in: "
      ++ toString i))

/-- The run of `getACUFromInt` ended in `logrus.Fatalf`. -/
def isFatal {α : Type} : Except Failure α → Bool
  | .error (.fatal _) => true
  | _ => false

/-- The run returned a value. -/
def returns {α : Type} : Except Failure α → Bool
  | .ok _ => true
  | .error _ => false

/-! ## Go standard library: `strings.SplitN` -/

namespace strings

/-- Go `strings.Index(s, sep)`: the position of the first occurrence of
`sep` in `s`; `none` stands for the result `-1`. -/
def Index : List Char → List Char → Option Nat
  | [], sep => if sep = [] then some 0 else none
  | c :: t, sep =>
    if sep.isPrefixOf (c :: t) then some 0 else (Index t sep).map (· + 1)

/-- The loop of Go `strings.Count` for a non-empty `sep`; the first argument
bounds the number of rounds (each round consumes at least one character). -/
def countLoop (sep : List Char) : Nat → List Char → Nat
  | 0, _ => 0
  | k + 1, s =>
    match Index s sep with
    | none => 0
    | some i => 1 + countLoop sep k (s.drop (i + sep.length))

/-- Go `strings.Count(s, sep)`: the number of non-overlapping occurrences. -/
def Count (s sep : List Char) : Nat :=
  if sep = [] then s.length + 1 else countLoop sep (s.length + 1) s

/-- Go `strings.explode(s, n)`: `s` cut into single characters, at most `n`
pieces, the last piece being the remainder. -/
def explode (s : List Char) (n : Int) : List (List Char) :=
  let l : Int := s.length
  let n := if n < 0 ∨ n > l then l else n
  let k := n.toNat
  if k = 0 then [] else (s.take (k - 1)).map (fun c => [c]) ++ [s.drop (k - 1)]

/-- The loop of Go `strings.genSplit`: `for i < n { m := Index(s, sep);
if m < 0 { break }; a[i] = s[:m+sepSave]; s = s[m+len(sep):]; i++ }; a[i] = s`.
The first argument is the number of rounds still allowed (`n - i`). -/
def genSplitLoop (sep : List Char) (sepSave : Nat) : Nat → List Char → List (List Char)
  | 0, s => [s]
  | k + 1, s =>
    match Index s sep with
    | none => [s]
    | some m => s.take (m + sepSave) :: genSplitLoop sep sepSave k (s.drop (m + sep.length))

/-- Go `strings.genSplit(s, sep, sepSave, n)`. -/
def genSplit (s sep : List Char) (sepSave : Nat) (n : Int) : List (List Char) :=
  if n = 0 then []
  else if sep = [] then explode s n
  else
    let n : Int := if n < 0 then (Count s sep : Int) + 1 else n
    let n : Int := if n > (s.length : Int) + 1 then (s.length : Int) + 1 else n
    genSplitLoop sep sepSave (n - 1).toNat s

/-- Go `strings.SplitN(s, sep, n)`, which is `genSplit(s, sep, 0, n)`. -/
def SplitN (s sep : String) (n : Int) : List String :=
  (genSplit s.data sep.data 0 n).map String.mk

end strings

/-! ## The configuration record and the library objects -/

/-- The library struct `awscdk.StackProps`.  The builder only copies it as a
whole; its zero value has every field unset. -/
structure StackProps where
  Description : Option String := none
  StackName : Option String := none
  TerminationProtection : Option Bool := none
deriving DecidableEq, Repr

/-- Modelled from the spec: the configuration record `rds.RDSStackProps` is
declared in the `rds` package, outside the file.  Its fields here are the
ones of the data model (network identifier, administrative username, database
name, deletion-protection flag, scaling bounds, auto-pause duration, parameter
overrides, snapshot ARN), under the names and with the types `NewRDSStack`
reads them.  `Parameters` is a collection measured with `len`, `none` being
the nil collection. -/
structure RDSStackProps where
  StackProps : RDS.StackProps
  VpcID : String
  AdminUser : String
  DatabaseName : String
  DeletionProtection : Bool
  Parameters : Option (List (String × String))
  AutoPauseDurationMinutes : Int
  AuroraCapacityUnitsMin : Int
  AuroraCapacityUnitsMax : Int
  RestoreSnapshotArn : String
deriving DecidableEq, Repr

/-- Go `len` of a collection: zero for the nil collection. -/
def len {α : Type} : Option (List α) → Nat
  | none => 0
  | some l => l.length

/-- The scope a stack is created in (`constructs.Construct`). -/
structure Construct where
  id : String
deriving DecidableEq, Repr

/-- Cluster engines of `awsrds`. -/
inductive IClusterEngine where
  | AURORA
  | AURORA_MYSQL
  | AURORA_POSTGRESQL
deriving DecidableEq, Repr

/-- Library function `awsrds.DatabaseClusterEngine_AURORA_MYSQL()`. -/
def DatabaseClusterEngine_AURORA_MYSQL : IClusterEngine := .AURORA_MYSQL

/-- The package variable `engine` (rds.go, line 16). -/
def engine : IClusterEngine := DatabaseClusterEngine_AURORA_MYSQL

/-- The library type `awscdk.RemovalPolicy` is a Go string type. -/
abbrev RemovalPolicy := String

/-- Library struct `awsec2.VpcLookupOptions`, the field the builder sets. -/
structure VpcLookupOptions where
  VpcId : String
deriving DecidableEq, Repr

/-- Handle returned by `awsec2.Vpc_FromLookup`. -/
structure IVpc where
  id : String
  options : VpcLookupOptions
deriving DecidableEq, Repr

/-- Handle returned by `rds.GetPrivateSubnetGroup`. -/
structure SubnetGroup where
  id : String
  vpc : IVpc
deriving DecidableEq, Repr

/-- Handle returned by `common.GetAllowAllVPCSecurityGroup`. -/
structure ISecurityGroup where
  id : String
  description : String
  vpc : IVpc
  port : Int
deriving DecidableEq, Repr

/-- Library struct `awsrds.CredentialsBaseOptions`; the builder passes the
empty literal. -/
structure CredentialsBaseOptions where
deriving DecidableEq, Repr

/-- Handle returned by `awsrds.Credentials_FromGeneratedSecret`. -/
structure Credentials where
  username : String
  options : CredentialsBaseOptions
deriving DecidableEq, Repr

/-- Handle returned by `rds.NewParameterGroup`. -/
structure ParameterGroup where
  id : String
  props : RDSStackProps
  engine : IClusterEngine
deriving DecidableEq, Repr

/-- Value returned by `awscdk.Duration_Minutes`. -/
structure Duration where
  minutes : Int
deriving DecidableEq, Repr

/-- Library function `awscdk.Duration_Minutes(jsii.Number(n))`, taken as
succeeding; the library's check of the amount is in
`Checked.Duration_Minutes`. -/
def Duration_Minutes (n : Int) : Duration := ⟨n⟩

/-- Library struct `awsrds.ServerlessScalingOptions`, the fields the builder
sets. -/
structure ServerlessScalingOptions where
  AutoPause : Duration
  MinCapacity : AuroraCapacityUnit
  MaxCapacity : AuroraCapacityUnit
deriving DecidableEq, Repr

/-- Library struct `awsrds.ServerlessClusterProps`, the fields the builder
sets.  `ParameterGroup` is an interface value: `none` is the nil interface,
that is, the field left unset. -/
structure ServerlessClusterProps where
  Engine : IClusterEngine
  DefaultDatabaseName : String
  CopyTagsToSnapshot : Bool
  DeletionProtection : Bool
  RemovalPolicy : RDS.RemovalPolicy
  Credentials : RDS.Credentials
  Vpc : IVpc
  Scaling : ServerlessScalingOptions
  SubnetGroup : RDS.SubnetGroup
  SecurityGroups : List ISecurityGroup
  ParameterGroup : Option RDS.ParameterGroup
deriving DecidableEq, Repr

/-- Handle returned by `awsrds.NewServerlessCluster`. -/
structure ServerlessCluster where
  id : String
  props : ServerlessClusterProps
deriving DecidableEq, Repr

/-- Aspect returned by `rds.NewSnapshotAspect`. -/
structure SnapshotAspect where
  snapshotArn : String
deriving DecidableEq, Repr

/-- Library struct `awscdk.CfnOutputProps`, the field the builder sets. -/
structure CfnOutputProps where
  Value : String
deriving DecidableEq, Repr

/-- A stack output created by `awscdk.NewCfnOutput`. -/
structure CfnOutput where
  id : String
  props : CfnOutputProps
deriving DecidableEq, Repr

/-- A construct created in the scope of the stack. -/
inductive Child where
  | vpc (v : IVpc)
  | subnetGroup (g : SubnetGroup)
  | securityGroup (g : ISecurityGroup)
  | parameterGroup (g : ParameterGroup)
  | cluster (c : ServerlessCluster)
  | output (o : CfnOutput)
deriving DecidableEq, Repr

/-- The stack under construction: what `awscdk.NewStack` was given, the
constructs created in its scope in the order of their creation, and the
aspects added, each with the cluster it was added to. -/
structure Stack where
  scope : Construct
  id : String
  props : StackProps
  children : List Child
  aspects : List (ServerlessCluster × SnapshotAspect)
deriving DecidableEq, Repr

/-- What the external collaborators hand back in one run: the removal policy
computed by `rds.GetRemovalPolicy(props)` and the attribute strings the
library resolves for the cluster and the credentials. -/
structure External where
  /-- Result of `rds.GetRemovalPolicy(props)`. -/
  RemovalPolicy : RDS.RemovalPolicy
  /-- Result of `cluster.ClusterEndpoint().Hostname()`. -/
  Hostname : String
  /-- Result of `cluster.ClusterEndpoint().SocketAddress()`. -/
  SocketAddress : String
  /-- Result of `creds.Username()`. -/
  Username : String
  /-- Result of `cluster.Secret().SecretArn()`. -/
  SecretArn : String
  /-- Result of `cluster.ClusterIdentifier()`. -/
  ClusterIdentifier : String
deriving DecidableEq, Repr

/-! ## Library constructors -/

/-- Library function `awscdk.NewStack`. -/
def NewStack (scope : Construct) (id : String) (props : StackProps) : Stack :=
  { scope := scope, id := id, props := props, children := [], aspects := [] }

/-- Registration of a new construct in the scope of the stack. -/
def Stack.add (stack : Stack) (c : Child) : Stack :=
  { stack with children := stack.children ++ [c] }

/-- Library function `awsec2.Vpc_FromLookup`. -/
def Vpc_FromLookup (stack : Stack) (id : String) (options : VpcLookupOptions) :
    Stack × IVpc :=
  (stack.add (.vpc ⟨id, options⟩), ⟨id, options⟩)

/-- Helper `rds.GetPrivateSubnetGroup` (outside the file): recorded as a
construct holding the arguments of the call. -/
def GetPrivateSubnetGroup (stack : Stack) (id : String) (vpc : IVpc) :
    Stack × SubnetGroup :=
  (stack.add (.subnetGroup ⟨id, vpc⟩), ⟨id, vpc⟩)

/-- Helper `common.GetAllowAllVPCSecurityGroup` (outside the file): recorded
as a construct holding the arguments of the call. -/
def GetAllowAllVPCSecurityGroup (stack : Stack) (id description : String) (vpc : IVpc)
    (port : Int) : Stack × ISecurityGroup :=
  (stack.add (.securityGroup ⟨id, description, vpc, port⟩), ⟨id, description, vpc, port⟩)

/-- Library function `awsrds.Credentials_FromGeneratedSecret`. -/
def Credentials_FromGeneratedSecret (username : String) (options : CredentialsBaseOptions) :
    Credentials :=
  ⟨username, options⟩

/-- Helper `rds.NewParameterGroup` (outside the file): recorded as a
construct holding the arguments of the call. -/
def NewParameterGroup (stack : Stack) (id : String) (props : RDSStackProps)
    (engine : IClusterEngine) : Stack × ParameterGroup :=
  (stack.add (.parameterGroup ⟨id, props, engine⟩), ⟨id, props, engine⟩)

/-- Library function `awsrds.NewServerlessCluster`, taken as succeeding; the
library's checks of the scaling options are in
`Checked.NewServerlessCluster`. -/
def NewServerlessCluster (stack : Stack) (id : String) (props : ServerlessClusterProps) :
    Stack × ServerlessCluster :=
  (stack.add (.cluster ⟨id, props⟩), ⟨id, props⟩)

/-- Helper `rds.NewSnapshotAspect` (outside the file): the aspect holds the
ARN it is given. -/
def NewSnapshotAspect (arn : String) : SnapshotAspect := ⟨arn⟩

/-- The library call `awscdk.Aspects_Of(cluster).Add(aspect)`. -/
def Aspects_Of_Add (stack : Stack) (cluster : ServerlessCluster) (aspect : SnapshotAspect) :
    Stack :=
  { stack with aspects := stack.aspects ++ [(cluster, aspect)] }

/-- Library function `awscdk.NewCfnOutput`. -/
def NewCfnOutput (stack : Stack) (id : String) (props : CfnOutputProps) : Stack :=
  stack.add (.output ⟨id, props⟩)

/-- Reading a field through the pointer `props`: a nil pointer panics. -/
def deref (props : Option RDSStackProps) : Except Failure RDSStackProps :=
  match props with
  | some p => .ok p
  | none => .error .nilPointerDereference

/-! ## The builder -/

/-- The function `NewRDSStack` (rds.go, lines 18-88), every library call
taken as succeeding. -/
def NewRDSStack (ext : External) (scope : Construct) (props : Option RDSStackProps) :
    Except Failure Stack := do
  let sprops : StackProps :=
    match props with
    | some p => p.StackProps
    | none => {}
  let stack := NewStack scope "Stack" sprops
  -- line 27: `props.VpcID` is the first read through `props` outside the guard
  let props ← deref props
  let (stack, vpc) := Vpc_FromLookup stack "VPC" { VpcId := props.VpcID }
  let (stack, subnetGroup) := GetPrivateSubnetGroup stack "SubnetGroup" vpc
  let (stack, sg) :=
    GetAllowAllVPCSecurityGroup stack "SG" "Acorn generated RDS security group." vpc 3306
  let sgs := [sg]
  let creds := Credentials_FromGeneratedSecret props.AdminUser {}
  let (stack, parameterGroup) :=
    if len props.Parameters > 0 then
      let (stack, pg) := NewParameterGroup stack "ParameterGroup" props engine
      (stack, some pg)
    else (stack, none)
  -- the composite literal of lines 42-59, its calls in source order
  let removalPolicy := ext.RemovalPolicy
  let autoPause := Duration_Minutes props.AutoPauseDurationMinutes
  let minCapacity ← getACUFromInt props.AuroraCapacityUnitsMin
  let maxCapacity ← getACUFromInt props.AuroraCapacityUnitsMax
  let (stack, cluster) := NewServerlessCluster stack "Cluster"
    { Engine := engine
      DefaultDatabaseName := props.DatabaseName
      CopyTagsToSnapshot := true
      DeletionProtection := props.DeletionProtection
      RemovalPolicy := removalPolicy
      Credentials := creds
      Vpc := vpc
      Scaling :=
        { AutoPause := autoPause
          MinCapacity := minCapacity
          MaxCapacity := maxCapacity }
      SubnetGroup := subnetGroup
      SecurityGroups := sgs
      ParameterGroup := parameterGroup }
  let stack :=
    if props.RestoreSnapshotArn ≠ "" then
      Aspects_Of_Add stack cluster (NewSnapshotAspect props.RestoreSnapshotArn)
    else stack
  let port := "3306"
  let pSlice := strings.SplitN ext.SocketAddress ":" 2
  let port := if h : pSlice.length = 2 then pSlice[1] else port
  let stack := NewCfnOutput stack "host" { Value := ext.Hostname }
  let stack := NewCfnOutput stack "port" { Value := port }
  let stack := NewCfnOutput stack "adminusername" { Value := ext.Username }
  let stack := NewCfnOutput stack "adminpasswordarn" { Value := ext.SecretArn }
  let stack := NewCfnOutput stack "clusterid" { Value := ext.ClusterIdentifier }
  return stack

/-! ## The builder under the argument checks of the library -/

/-- Library method `Duration.toSeconds()` of a duration given in minutes. -/
def Duration.toSeconds (d : Duration) : Int := d.minutes * 60

namespace Checked

/-- The number behind a member of the library enumeration
`AuroraCapacityUnit` (`ACU_n` stands for `n`); `none` for any other string. -/
def capacity (u : AuroraCapacityUnit) : Option Int :=
  if u = AuroraCapacityUnit_ACU_1 then some 1
  else if u = AuroraCapacityUnit_ACU_2 then some 2
  else if u = AuroraCapacityUnit_ACU_4 then some 4
  else if u = AuroraCapacityUnit_ACU_8 then some 8
  else if u = AuroraCapacityUnit_ACU_16 then some 16
  else if u = AuroraCapacityUnit_ACU_32 then some 32
  else if u = AuroraCapacityUnit_ACU_64 then some 64
  else if u = AuroraCapacityUnit_ACU_128 then some 128
  else if u = AuroraCapacityUnit_ACU_256 then some 256
  else if u = AuroraCapacityUnit_ACU_384 then some 384
  else none

/-- Library function `awscdk.Duration_Minutes` with its check: a negative
amount is rejected. -/
def Duration_Minutes (n : Int) : Except Failure Duration :=
  if n < 0 then
    .error (.libraryPanic ("Duration amounts cannot be negative. Received: " ++ toString n))
  else .ok (RDS.Duration_Minutes n)

/-- The library's comparison `minCapacity > maxCapacity`, made when both
capacities are set. -/
def minExceedsMax (scaling : ServerlessScalingOptions) : Bool :=
  match capacity scaling.MinCapacity, capacity scaling.MaxCapacity with
  | some lo, some hi => decide (lo > hi)
  | _, _ => false

/-- Library function `awsrds.NewServerlessCluster` with its checks of the
scaling options: the minimum capacity may not exceed the maximum, and an
auto-pause time other than zero lies between 300 and 86400 seconds. -/
def NewServerlessCluster (stack : Stack) (id : String) (props : ServerlessClusterProps) :
    Except Failure (Stack × ServerlessCluster) :=
  if minExceedsMax props.Scaling = true then
    .error (.libraryPanic
      "maximum capacity must be greater than or equal to minimum capacity.")
  else
    let secondsToAutoPause := props.Scaling.AutoPause.toSeconds
    if secondsToAutoPause ≠ 0 ∧ (secondsToAutoPause < 300 ∨ secondsToAutoPause > 86400) then
      .error (.libraryPanic "auto pause time must be between 5 minutes and 1 day.")
    else .ok (RDS.NewServerlessCluster stack id props)

/-- The function `NewRDSStack` (rds.go, lines 18-88) with the argument checks
of `awscdk.Duration_Minutes` (line 52) and `awsrds.NewServerlessCluster`
(line 42). -/
def NewRDSStack (ext : External) (scope : Construct) (props : Option RDSStackProps) :
    Except Failure Stack := do
  let sprops : StackProps :=
    match props with
    | some p => p.StackProps
    | none => {}
  let stack := NewStack scope "Stack" sprops
  -- line 27: `props.VpcID` is the first read through `props` outside the guard
  let props ← deref props
  let (stack, vpc) := Vpc_FromLookup stack "VPC" { VpcId := props.VpcID }
  let (stack, subnetGroup) := GetPrivateSubnetGroup stack "SubnetGroup" vpc
  let (stack, sg) :=
    GetAllowAllVPCSecurityGroup stack "SG" "Acorn generated RDS security group." vpc 3306
  let sgs := [sg]
  let creds := Credentials_FromGeneratedSecret props.AdminUser {}
  let (stack, parameterGroup) :=
    if len props.Parameters > 0 then
      let (stack, pg) := NewParameterGroup stack "ParameterGroup" props engine
      (stack, some pg)
    else (stack, none)
  -- the composite literal of lines 42-59, its calls in source order
  let removalPolicy := ext.RemovalPolicy
  let autoPause ← Duration_Minutes props.AutoPauseDurationMinutes
  let minCapacity ← getACUFromInt props.AuroraCapacityUnitsMin
  let maxCapacity ← getACUFromInt props.AuroraCapacityUnitsMax
  let (stack, cluster) ← NewServerlessCluster stack "Cluster"
    { Engine := engine
      DefaultDatabaseName := props.DatabaseName
      CopyTagsToSnapshot := true
      DeletionProtection := props.DeletionProtection
      RemovalPolicy := removalPolicy
      Credentials := creds
      Vpc := vpc
      Scaling :=
        { AutoPause := autoPause
          MinCapacity := minCapacity
          MaxCapacity := maxCapacity }
      SubnetGroup := subnetGroup
      SecurityGroups := sgs
      ParameterGroup := parameterGroup }
  let stack :=
    if props.RestoreSnapshotArn ≠ "" then
      Aspects_Of_Add stack cluster (NewSnapshotAspect props.RestoreSnapshotArn)
    else stack
  let port := "3306"
  let pSlice := strings.SplitN ext.SocketAddress ":" 2
  let port := if h : pSlice.length = 2 then pSlice[1] else port
  let stack := NewCfnOutput stack "host" { Value := ext.Hostname }
  let stack := NewCfnOutput stack "port" { Value := port }
  let stack := NewCfnOutput stack "adminusername" { Value := ext.Username }
  let stack := NewCfnOutput stack "adminpasswordarn" { Value := ext.SecretArn }
  let stack := NewCfnOutput stack "clusterid" { Value := ext.ClusterIdentifier }
  return stack

end Checked

/-! ## Reading the finished stack -/

/-- The clusters created in the stack. -/
def Stack.clusters (stack : Stack) : List ServerlessCluster :=
  stack.children.filterMap fun
    | .cluster c => some c
    | _ => none

/-- The parameter groups created in the stack. -/
def Stack.parameterGroups (stack : Stack) : List ParameterGroup :=
  stack.children.filterMap fun
    | .parameterGroup g => some g
    | _ => none

/-- The outputs published by the stack, as key and value, in order. -/
def Stack.outputs (stack : Stack) : List (String × String) :=
  stack.children.filterMap fun
    | .output o => some (o.id, o.props.Value)
    | _ => none

/-! ## A sample run -/

/-- A scope for the sample run. -/
def sampleScope : Construct := ⟨"App"⟩

/-- A sample configuration: a parameter override, a snapshot to restore, and
capacity bounds 2 and 8 with an auto-pause time of 10 minutes. -/
def sampleProps : RDSStackProps :=
  { StackProps := {}
    VpcID := "vpc-0a1b"
    AdminUser := "admin"
    DatabaseName := "appdb"
    DeletionProtection := true
    Parameters := some [("max_connections", "100")]
    AutoPauseDurationMinutes := 10
    AuroraCapacityUnitsMin := 2
    AuroraCapacityUnitsMax := 8
    RestoreSnapshotArn := "arn:snapshot/one" }

/-- The sample configuration with the capacity bounds exchanged: minimum 8
above maximum 2, both valid capacity values. -/
def rejectedProps : RDSStackProps :=
  { sampleProps with AuroraCapacityUnitsMin := 8, AuroraCapacityUnitsMax := 2 }

/-- Sample results of the external collaborators. -/
def sampleExternal : External :=
  { RemovalPolicy := "snapshot"
    Hostname := "db.cluster.local"
    SocketAddress := "db.cluster.local:3307"
    Username := "admin"
    SecretArn := "arn:secret/one"
    ClusterIdentifier := "cluster-1" }

/-- The cluster of the sample run. -/
def sampleCluster : ServerlessCluster :=
  { id := "Cluster"
    props :=
      { Engine := .AURORA_MYSQL
        DefaultDatabaseName := "appdb"
        CopyTagsToSnapshot := true
        DeletionProtection := true
        RemovalPolicy := "snapshot"
        Credentials := ⟨"admin", {}⟩
        Vpc := ⟨"VPC", ⟨"vpc-0a1b"⟩⟩
        Scaling := ⟨⟨10⟩, "ACU_2", "ACU_8"⟩
        SubnetGroup := ⟨"SubnetGroup", ⟨"VPC", ⟨"vpc-0a1b"⟩⟩⟩
        SecurityGroups :=
          [⟨"SG", "Acorn generated RDS security group.", ⟨"VPC", ⟨"vpc-0a1b"⟩⟩, 3306⟩]
        ParameterGroup := some ⟨"ParameterGroup", sampleProps, .AURORA_MYSQL⟩ } }

/-- The stack the sample run returns. -/
def sampleStack : Stack :=
  { scope := ⟨"App"⟩
    id := "Stack"
    props := {}
    children :=
      [.vpc ⟨"VPC", ⟨"vpc-0a1b"⟩⟩,
       .subnetGroup ⟨"SubnetGroup", ⟨"VPC", ⟨"vpc-0a1b"⟩⟩⟩,
       .securityGroup
         ⟨"SG", "Acorn generated RDS security group.", ⟨"VPC", ⟨"vpc-0a1b"⟩⟩, 3306⟩,
       .parameterGroup ⟨"ParameterGroup", sampleProps, .AURORA_MYSQL⟩,
       .cluster sampleCluster,
       .output ⟨"host", ⟨"db.cluster.local"⟩⟩,
       .output ⟨"port", ⟨"3307"⟩⟩,
       .output ⟨"adminusername", ⟨"admin"⟩⟩,
       .output ⟨"adminpasswordarn", ⟨"arn:secret/one"⟩⟩,
       .output ⟨"clusterid", ⟨"cluster-1"⟩⟩]
    aspects := [(sampleCluster, ⟨"arn:snapshot/one"⟩)] }

/-! ## Evaluation checks -/

example : strings.SplitN "db.example:3306" ":" 2 = ["db.example", "3306"] := by decide
example : strings.SplitN "a:b:c" ":" 2 = ["a", "b:c"] := by decide
example : strings.SplitN "abc" ":" 2 = ["abc"] := by decide
example : strings.SplitN "abc:" ":" 2 = ["abc", ""] := by decide
example : strings.SplitN "" ":" 2 = [""] := by decide
example : strings.SplitN "a,b,c" "," (-1) = ["a", "b", "c"] := by decide
example : strings.SplitN "abc" "" 2 = ["a", "bc"] := by decide
example : strings.SplitN "a::b::c" "::" 3 = ["a", "b", "c"] := by decide

example : getACUFromInt 384 = .ok "ACU_384" := by decide
example : isFatal (getACUFromInt 3) = true := by decide
example : getACUFromInt (-1) = .error (.fatal
    "invalid ACU request must be 1, 2, 4, 8, 16, 32, 64, 128, 256, 384. Passed in: -1") := by
  decide

example : NewRDSStack sampleExternal sampleScope (some sampleProps) = .ok sampleStack := by
  decide
example :
    Checked.NewRDSStack sampleExternal sampleScope (some sampleProps) = .ok sampleStack := by
  decide
example : Checked.NewRDSStack sampleExternal sampleScope (some rejectedProps)
    = .error (.libraryPanic
        "maximum capacity must be greater than or equal to minimum capacity.") := by
  decide
example : Checked.NewRDSStack sampleExternal sampleScope
    (some { sampleProps with AutoPauseDurationMinutes := 3 })
    = .error (.libraryPanic "auto pause time must be between 5 minutes and 1 day.") := by
  decide
example : Checked.NewRDSStack sampleExternal sampleScope
    (some { sampleProps with AutoPauseDurationMinutes := -1, AuroraCapacityUnitsMin := 3 })
    = .error (.libraryPanic "Duration amounts cannot be negative. Received: -1") := by
  decide
example : returns (Checked.NewRDSStack sampleExternal sampleScope
    (some { sampleProps with AutoPauseDurationMinutes := 0 })) = true := by
  decide

/-! ## Lemmas on `strings.SplitN` with the separator ":" -/

theorem strings.Index_colon_absent (s : List Char) (h : ':' ∉ s) :
    strings.Index s [':'] = none := by
  induction s with
  | nil => simp [strings.Index]
  | cons c t ih =>
    simp only [List.mem_cons, not_or] at h
    have hc : c ≠ ':' := fun e => h.1 e.symm
    simp [strings.Index, List.isPrefixOf, ih h.2, hc, Ne.symm hc]

theorem strings.Index_colon_first (pre post : List Char) (h : ':' ∉ pre) :
    strings.Index (pre ++ ':' :: post) [':'] = some pre.length := by
  induction pre with
  | nil => simp [strings.Index, List.isPrefixOf]
  | cons c t ih =>
    simp only [List.mem_cons, not_or] at h
    have hc : c ≠ ':' := fun e => h.1 e.symm
    simp [strings.Index, List.isPrefixOf, ih h.2, hc, Ne.symm hc]

theorem strings.genSplit_colon_absent (s : List Char) (h : ':' ∉ s) :
    strings.genSplit s [':'] 0 2 = [s] := by
  cases s with
  | nil => simp [strings.genSplit, strings.genSplitLoop]
  | cons c t =>
    have hn : ¬ ((2 : Int) > ((c :: t).length : Int) + 1) := by
      simp only [List.length_cons]; push_cast; omega
    simp only [strings.genSplit, hn]
    simp [strings.genSplitLoop, strings.Index_colon_absent _ h]

theorem strings.genSplit_colon_first (pre post : List Char) (h : ':' ∉ pre) :
    strings.genSplit (pre ++ ':' :: post) [':'] 0 2 = [pre, post] := by
  have hn : ¬ ((2 : Int) > ((pre ++ ':' :: post).length : Int) + 1) := by
    simp only [List.length_append, List.length_cons]; push_cast; omega
  simp only [strings.genSplit, hn]
  simp [strings.genSplitLoop, strings.Index_colon_first _ _ h]

theorem strings.SplitN_colon_absent (s : String) (h : ':' ∉ s.data) :
    strings.SplitN s ":" 2 = [s] := by
  have hd : (":" : String).data = [':'] := rfl
  simp [strings.SplitN, hd, strings.genSplit_colon_absent _ h]

theorem strings.SplitN_colon_first (s : String) (pre post : List Char)
    (hs : s.data = pre ++ ':' :: post) (h : ':' ∉ pre) :
    strings.SplitN s ":" 2 = [String.mk pre, String.mk post] := by
  have hd : (":" : String).data = [':'] := rfl
  simp [strings.SplitN, hd, hs, strings.genSplit_colon_first _ _ h]

/-! ## `getACUFromInt` -/

theorem getACUFromInt_of_mem (i : Int) (h : i ∈ [1, 2, 4, 8, 16, 32, 64, 128, 256, 384]) :
    getACUFromInt i = .ok ("ACU_" ++ toString i) := by
  simp only [List.mem_cons, List.mem_singleton, List.not_mem_nil, or_false] at h
  rcases h with h | h | h | h | h | h | h | h | h | h <;> subst h <;> decide

theorem getACUFromInt_of_not_mem (i : Int)
    (h : i ∉ [1, 2, 4, 8, 16, 32, 64, 128, 256, 384]) :
    getACUFromInt i = .error (.fatal
      ("invalid ACU request must be 1, 2, 4, 8, 16, 32, 64, 128, 256, 384. Passed in: "
        ++ toString i)) := by
  simp only [List.mem_cons, List.mem_singleton, List.not_mem_nil, or_false, not_or] at h
  simp [getACUFromInt, h]

theorem returns_getACUFromInt_iff (i : Int) :
    returns (getACUFromInt i) = true ↔ i ∈ [1, 2, 4, 8, 16, 32, 64, 128, 256, 384] := by
  by_cases h : i ∈ [1, 2, 4, 8, 16, 32, 64, 128, 256, 384]
  · simp only [getACUFromInt_of_mem i h, returns, h]
  · simp only [getACUFromInt_of_not_mem i h, returns, h]
    simp

theorem validSet_eq :
    {i : Int | returns (getACUFromInt i) = true}
      = ((({1, 2, 4, 8, 16, 32, 64, 128, 256, 384} : Finset Int)) : Set Int) := by
  ext i
  simp only [Set.mem_setOf_eq, returns_getACUFromInt_iff, Finset.coe_insert,
    Finset.coe_singleton, Set.mem_insert_iff, Set.mem_singleton_iff, List.mem_cons,
    List.mem_singleton, List.not_mem_nil, or_false]

/-- C1: `getACUFromInt i` ends the process with a fatal error exactly when `i`
is none of 1, 2, 4, 8, 16, 32, 64, 128, 256, 384; zero, negative values and
values between the members of the set (3, 192, 512) are fatal, and no member
of the set is. -/
theorem getACUFromInt_fatal_iff :
    (∀ i : Int, isFatal (getACUFromInt i) = true
        ↔ i ∉ [1, 2, 4, 8, 16, 32, 64, 128, 256, 384]) ∧
    (∀ i : Int, i ≤ 0 → isFatal (getACUFromInt i) = true) ∧
    isFatal (getACUFromInt 3) = true ∧
    isFatal (getACUFromInt 192) = true ∧
    isFatal (getACUFromInt 512) = true ∧
    (∀ i ∈ [1, 2, 4, 8, 16, 32, 64, 128, 256, 384], isFatal (getACUFromInt i) = false) := by
  have key : ∀ i : Int, isFatal (getACUFromInt i) = true
      ↔ i ∉ [1, 2, 4, 8, 16, 32, 64, 128, 256, 384] := by
    intro i
    by_cases h : i ∈ [1, 2, 4, 8, 16, 32, 64, 128, 256, 384]
    · simp only [getACUFromInt_of_mem i h, isFatal, h]
      simp
    · simp only [getACUFromInt_of_not_mem i h, isFatal, h]
      simp
  refine ⟨key, ?_, by decide, by decide, by decide, ?_⟩
  · intro i hi
    rw [key]
    simp only [List.mem_cons, List.mem_singleton, List.not_mem_nil, or_false, not_or]
    omega
  · intro i hi
    simp only [getACUFromInt_of_mem i hi, isFatal]

/-- C2: for each valid capacity value `n`, `getACUFromInt n` returns the
capacity unit `ACU_n` carrying the same number, and never the empty string. -/
theorem getACUFromInt_valid :
    getACUFromInt 1 = .ok AuroraCapacityUnit_ACU_1 ∧
    getACUFromInt 2 = .ok AuroraCapacityUnit_ACU_2 ∧
    getACUFromInt 4 = .ok AuroraCapacityUnit_ACU_4 ∧
    getACUFromInt 8 = .ok AuroraCapacityUnit_ACU_8 ∧
    getACUFromInt 16 = .ok AuroraCapacityUnit_ACU_16 ∧
    getACUFromInt 32 = .ok AuroraCapacityUnit_ACU_32 ∧
    getACUFromInt 64 = .ok AuroraCapacityUnit_ACU_64 ∧
    getACUFromInt 128 = .ok AuroraCapacityUnit_ACU_128 ∧
    getACUFromInt 256 = .ok AuroraCapacityUnit_ACU_256 ∧
    getACUFromInt 384 = .ok AuroraCapacityUnit_ACU_384 ∧
    (∀ n ∈ [1, 2, 4, 8, 16, 32, 64, 128, 256, 384],
      getACUFromInt n = .ok ("ACU_" ++ toString n) ∧ getACUFromInt n ≠ .ok "") := by
  refine ⟨by decide, by decide, by decide, by decide, by decide, by decide, by decide,
    by decide, by decide, by decide, ?_⟩
  intro n hn
  simp only [List.mem_cons, List.mem_singleton, List.not_mem_nil, or_false] at hn
  rcases hn with h | h | h | h | h | h | h | h | h | h <;> subst h <;> decide

/-- C3 (as stated, refuted): the set of integers on which `getACUFromInt`
returns a capacity unit does not have nine members. -/
theorem validSet_card_ne_nine :
    ¬ (Set.ncard {i : Int | returns (getACUFromInt i) = true} = 9) := by
  rw [validSet_eq, Set.ncard_coe_Finset]
  decide

/-- C3 (amended): the set of integers on which `getACUFromInt` returns a
capacity unit has exactly ten members. -/
theorem validSet_card_eq_ten :
    Set.ncard {i : Int | returns (getACUFromInt i) = true} = 10 := by
  rw [validSet_eq, Set.ncard_coe_Finset]
  decide

/-! ## `NewRDSStack` -/

theorem NewRDSStack_nil (ext : External) (scope : Construct) :
    NewRDSStack ext scope none = .error .nilPointerDereference := by
  rfl

theorem NewRDSStack_min_error (ext : External) (scope : Construct) (p : RDSStackProps)
    (e : Failure) (ha : getACUFromInt p.AuroraCapacityUnitsMin = .error e) :
    NewRDSStack ext scope (some p) = .error e := by
  simp only [NewRDSStack, deref, ha, bind, Except.bind]

theorem NewRDSStack_max_error (ext : External) (scope : Construct) (p : RDSStackProps)
    (a : AuroraCapacityUnit) (e : Failure)
    (ha : getACUFromInt p.AuroraCapacityUnitsMin = .ok a)
    (hb : getACUFromInt p.AuroraCapacityUnitsMax = .error e) :
    NewRDSStack ext scope (some p) = .error e := by
  simp only [NewRDSStack, deref, ha, hb, bind, Except.bind]

theorem NewRDSStack_ok (ext : External) (scope : Construct) (p : RDSStackProps)
    (a b : AuroraCapacityUnit)
    (ha : getACUFromInt p.AuroraCapacityUnitsMin = .ok a)
    (hb : getACUFromInt p.AuroraCapacityUnitsMax = .ok b)
    (c : ServerlessCluster)
    (hc : c = ⟨"Cluster",
      { Engine := engine
        DefaultDatabaseName := p.DatabaseName
        CopyTagsToSnapshot := true
        DeletionProtection := p.DeletionProtection
        RemovalPolicy := ext.RemovalPolicy
        Credentials := ⟨p.AdminUser, {}⟩
        Vpc := ⟨"VPC", ⟨p.VpcID⟩⟩
        Scaling := ⟨⟨p.AutoPauseDurationMinutes⟩, a, b⟩
        SubnetGroup := ⟨"SubnetGroup", ⟨"VPC", ⟨p.VpcID⟩⟩⟩
        SecurityGroups :=
          [⟨"SG", "Acorn generated RDS security group.", ⟨"VPC", ⟨p.VpcID⟩⟩, 3306⟩]
        ParameterGroup :=
          if len p.Parameters > 0 then some ⟨"ParameterGroup", p, engine⟩ else none }⟩) :
    NewRDSStack ext scope (some p) = .ok
      { scope := scope
        id := "Stack"
        props := p.StackProps
        children :=
          [.vpc ⟨"VPC", ⟨p.VpcID⟩⟩,
           .subnetGroup ⟨"SubnetGroup", ⟨"VPC", ⟨p.VpcID⟩⟩⟩,
           .securityGroup
             ⟨"SG", "Acorn generated RDS security group.", ⟨"VPC", ⟨p.VpcID⟩⟩, 3306⟩]
          ++ (if len p.Parameters > 0 then [.parameterGroup ⟨"ParameterGroup", p, engine⟩]
              else [])
          ++ [.cluster c,
              .output ⟨"host", ⟨ext.Hostname⟩⟩,
              .output ⟨"port",
                ⟨if h : (strings.SplitN ext.SocketAddress ":" 2).length = 2 then
                    (strings.SplitN ext.SocketAddress ":" 2)[1]
                  else "3306"⟩⟩,
              .output ⟨"adminusername", ⟨ext.Username⟩⟩,
              .output ⟨"adminpasswordarn", ⟨ext.SecretArn⟩⟩,
              .output ⟨"clusterid", ⟨ext.ClusterIdentifier⟩⟩]
        aspects :=
          if p.RestoreSnapshotArn ≠ "" then [(c, ⟨p.RestoreSnapshotArn⟩)] else [] } := by
  subst hc
  simp only [NewRDSStack, deref, ha, hb, bind, Except.bind, pure, Except.pure, NewCfnOutput,
    Stack.add, Aspects_Of_Add, NewServerlessCluster, NewParameterGroup,
    GetAllowAllVPCSecurityGroup, GetPrivateSubnetGroup, Vpc_FromLookup, NewStack,
    Credentials_FromGeneratedSecret, Duration_Minutes, NewSnapshotAspect]
  by_cases hp : len p.Parameters > 0 <;> by_cases hr : p.RestoreSnapshotArn = "" <;>
    simp [hp, hr]

/-- What a completed run leaves in the stack, for capacity units `a` and `b`. -/
theorem NewRDSStack_views (ext : External) (scope : Construct) (p : RDSStackProps)
    (a b : AuroraCapacityUnit)
    (ha : getACUFromInt p.AuroraCapacityUnitsMin = .ok a)
    (hb : getACUFromInt p.AuroraCapacityUnitsMax = .ok b) :
    ∃ st c, NewRDSStack ext scope (some p) = .ok st ∧ st.clusters = [c] ∧
      c.props.Scaling = ⟨Duration_Minutes p.AutoPauseDurationMinutes, a, b⟩ ∧
      c.props.ParameterGroup
        = (if len p.Parameters > 0 then some ⟨"ParameterGroup", p, engine⟩ else none) ∧
      st.parameterGroups
        = (if len p.Parameters > 0 then [⟨"ParameterGroup", p, engine⟩] else []) ∧
      st.aspects = (if p.RestoreSnapshotArn ≠ "" then [(c, ⟨p.RestoreSnapshotArn⟩)] else []) ∧
      st.outputs =
        [("host", ext.Hostname),
         ("port", if h : (strings.SplitN ext.SocketAddress ":" 2).length = 2 then
            (strings.SplitN ext.SocketAddress ":" 2)[1] else "3306"),
         ("adminusername", ext.Username),
         ("adminpasswordarn", ext.SecretArn),
         ("clusterid", ext.ClusterIdentifier)] := by
  refine ⟨_, _, NewRDSStack_ok ext scope p a b ha hb _ rfl, ?_, rfl, rfl, ?_, rfl, ?_⟩ <;>
    by_cases hp : len p.Parameters > 0 <;>
    simp [Stack.clusters, Stack.parameterGroups, Stack.outputs, hp]

theorem NewRDSStack_ok_inv (ext : External) (scope : Construct) (props : Option RDSStackProps)
    (st : Stack) (h : NewRDSStack ext scope props = .ok st) :
    ∃ p a b, props = some p ∧ getACUFromInt p.AuroraCapacityUnitsMin = .ok a ∧
      getACUFromInt p.AuroraCapacityUnitsMax = .ok b := by
  cases props with
  | none => rw [NewRDSStack_nil] at h; cases h
  | some p =>
    cases ha : getACUFromInt p.AuroraCapacityUnitsMin with
    | error e => rw [NewRDSStack_min_error ext scope p e ha] at h; cases h
    | ok a =>
      cases hb : getACUFromInt p.AuroraCapacityUnitsMax with
      | error e => rw [NewRDSStack_max_error ext scope p a e ha hb] at h; cases h
      | ok b => exact ⟨p, a, b, rfl, ha, hb⟩

theorem port_colon_absent (s : String) (h : ':' ∉ s.data) :
    (if h : (strings.SplitN s ":" 2).length = 2 then (strings.SplitN s ":" 2)[1]
      else "3306") = "3306" := by
  simp [strings.SplitN_colon_absent s h]

theorem port_colon_first (s : String) (pre post : List Char)
    (hs : s.data = pre ++ ':' :: post) (h : ':' ∉ pre) :
    (if h : (strings.SplitN s ":" 2).length = 2 then (strings.SplitN s ":" 2)[1]
      else "3306") = String.mk post := by
  simp [strings.SplitN_colon_first s pre post hs h]

theorem exists_first_colon (l : List Char) (h : ':' ∈ l) :
    ∃ pre post, l = pre ++ ':' :: post ∧ ':' ∉ pre := by
  induction l with
  | nil => cases h
  | cons c t ih =>
    by_cases hc : c = ':'
    · exact ⟨[], t, by simp [hc], by simp⟩
    · have ht : ':' ∈ t := by
        rcases List.mem_cons.mp h with e | e
        · exact absurd e.symm hc
        · exact e
      obtain ⟨pre, post, e, hn⟩ := ih ht
      refine ⟨c :: pre, post, by simp [e], ?_⟩
      simp only [List.mem_cons, not_or]
      exact ⟨fun e => hc e.symm, hn⟩

theorem NewRDSStack_outputs (ext : External) (scope : Construct)
    (props : Option RDSStackProps) (st : Stack) (h : NewRDSStack ext scope props = .ok st) :
    st.outputs =
      [("host", ext.Hostname),
       ("port", if h : (strings.SplitN ext.SocketAddress ":" 2).length = 2 then
          (strings.SplitN ext.SocketAddress ":" 2)[1] else "3306"),
       ("adminusername", ext.Username),
       ("adminpasswordarn", ext.SecretArn),
       ("clusterid", ext.ClusterIdentifier)] := by
  obtain ⟨p, a, b, rfl, ha, hb⟩ := NewRDSStack_ok_inv ext scope props st h
  obtain ⟨st2, c, h2, -, -, -, -, -, ho⟩ := NewRDSStack_views ext scope p a b ha hb
  rw [h2] at h
  injection h with h
  subst h
  exact ho

/-! ## The builder under the library's checks -/

theorem capacity_of_mem (i : Int)
    (h : i ∈ [1, 2, 4, 8, 16, 32, 64, 128, 256, 384]) :
    Checked.capacity ("ACU_" ++ toString i) = some i := by
  simp only [List.mem_cons, List.mem_singleton, List.not_mem_nil, or_false] at h
  rcases h with h | h | h | h | h | h | h | h | h | h <;> subst h <;> decide

theorem checked_cluster_ok (stack : Stack) (id : String)
    (props : ServerlessClusterProps) (v : Stack × ServerlessCluster)
    (h : Checked.NewServerlessCluster stack id props = .ok v) :
    v = RDS.NewServerlessCluster stack id props := by
  unfold Checked.NewServerlessCluster at h
  split at h
  · cases h
  · simp only at h
    split at h
    · cases h
    · injection h with h
      exact h.symm

theorem checked_cluster_error (stack : Stack) (id : String)
    (props : ServerlessClusterProps) (e : Failure)
    (h : Checked.NewServerlessCluster stack id props = .error e) :
    ∃ msg, e = .libraryPanic msg := by
  unfold Checked.NewServerlessCluster at h
  split at h
  · injection h with h
    exact ⟨_, h.symm⟩
  · simp only at h
    split at h
    · injection h with h
      exact ⟨_, h.symm⟩
    · cases h

/-- Every run that completes under the library's checks completes without
them, and returns the same stack. -/
theorem checked_ok_unchecked (ext : External) (scope : Construct)
    (props : Option RDSStackProps) (st : Stack)
    (h : Checked.NewRDSStack ext scope props = .ok st) :
    NewRDSStack ext scope props = .ok st := by
  cases props with
  | none => cases h
  | some p =>
    by_cases hd : p.AutoPauseDurationMinutes < 0
    · simp [Checked.NewRDSStack, deref, Checked.Duration_Minutes, hd, bind, Except.bind] at h
    · cases ha : getACUFromInt p.AuroraCapacityUnitsMin with
      | error e =>
        simp [Checked.NewRDSStack, deref, Checked.Duration_Minutes, hd, ha, bind,
          Except.bind] at h
      | ok a =>
        cases hb : getACUFromInt p.AuroraCapacityUnitsMax with
        | error e =>
          simp [Checked.NewRDSStack, deref, Checked.Duration_Minutes, hd, ha, hb, bind,
            Except.bind] at h
        | ok b =>
          simp only [Checked.NewRDSStack, deref, Checked.Duration_Minutes, hd, ha, hb, bind,
            Except.bind, pure, Except.pure, if_false] at h
          split at h
          · cases h
          · rename_i v hv
            have e := checked_cluster_ok _ _ _ _ hv
            subst e
            simp only [RDS.NewServerlessCluster] at h
            simp only [NewRDSStack, deref, ha, hb, bind, Except.bind, pure, Except.pure,
              RDS.NewServerlessCluster]
            exact h

/-- A run with valid capacity bounds that completes under the library's
checks has its minimum at most its maximum. -/
theorem checked_ok_le (ext : External) (scope : Construct) (p : RDSStackProps)
    (hmin : p.AuroraCapacityUnitsMin ∈ [1, 2, 4, 8, 16, 32, 64, 128, 256, 384])
    (hmax : p.AuroraCapacityUnitsMax ∈ [1, 2, 4, 8, 16, 32, 64, 128, 256, 384])
    (st : Stack) (h : Checked.NewRDSStack ext scope (some p) = .ok st) :
    p.AuroraCapacityUnitsMin ≤ p.AuroraCapacityUnitsMax := by
  by_contra hgt
  have hgt2 : p.AuroraCapacityUnitsMin > p.AuroraCapacityUnitsMax := by omega
  by_cases hd : p.AutoPauseDurationMinutes < 0
  · simp [Checked.NewRDSStack, deref, Checked.Duration_Minutes, hd, bind, Except.bind] at h
  · simp [Checked.NewRDSStack, deref, Checked.Duration_Minutes, hd, bind, Except.bind,
      getACUFromInt_of_mem _ hmin, getACUFromInt_of_mem _ hmax, Checked.NewServerlessCluster,
      Checked.minExceedsMax, capacity_of_mem _ hmin, capacity_of_mem _ hmax,
      hgt2] at h

/-- With valid capacity bounds a run under the library's checks never ends in
the builder's own fatal error. -/
theorem checked_not_fatal (ext : External) (scope : Construct)
    (p : RDSStackProps)
    (hmin : p.AuroraCapacityUnitsMin ∈ [1, 2, 4, 8, 16, 32, 64, 128, 256, 384])
    (hmax : p.AuroraCapacityUnitsMax ∈ [1, 2, 4, 8, 16, 32, 64, 128, 256, 384]) :
    isFatal (Checked.NewRDSStack ext scope (some p)) = false := by
  by_cases hd : p.AutoPauseDurationMinutes < 0
  · simp [Checked.NewRDSStack, deref, Checked.Duration_Minutes, hd, bind, Except.bind,
      isFatal]
  · simp only [Checked.NewRDSStack, deref, Checked.Duration_Minutes, hd, bind, Except.bind,
      getACUFromInt_of_mem _ hmin, getACUFromInt_of_mem _ hmax, if_false, pure, Except.pure]
    split
    · rename_i e he
      obtain ⟨msg, rfl⟩ := checked_cluster_error _ _ _ _ he
      rfl
    · rfl

/-- C4: the port published by `NewRDSStack` is "3306" when the endpoint
socket address has no colon, and otherwise the substring after its first
colon: later colons stay in the port, and an address ending at its first
colon gives the empty port. -/
theorem NewRDSStack_port (ext : External) (scope : Construct)
    (props : Option RDSStackProps) (st : Stack)
    (h : NewRDSStack ext scope props = .ok st) :
    (':' ∉ ext.SocketAddress.data → List.lookup "port" st.outputs = some "3306") ∧
    (∀ pre post : List Char, ext.SocketAddress.data = pre ++ ':' :: post → ':' ∉ pre →
      List.lookup "port" st.outputs = some (String.mk post)) ∧
    (∀ pre : List Char, ext.SocketAddress.data = pre ++ [':'] → ':' ∉ pre →
      List.lookup "port" st.outputs = some "") ∧
    (':' ∈ ext.SocketAddress.data →
      ∃ pre post : List Char, ext.SocketAddress.data = pre ++ ':' :: post ∧ ':' ∉ pre ∧
        List.lookup "port" st.outputs = some (String.mk post)) := by
  have ho := NewRDSStack_outputs ext scope props st h
  have hl : List.lookup "port" st.outputs
      = some (if h : (strings.SplitN ext.SocketAddress ":" 2).length = 2 then
          (strings.SplitN ext.SocketAddress ":" 2)[1] else "3306") := by
    rw [ho]
    rfl
  have hfirst : ∀ pre post : List Char, ext.SocketAddress.data = pre ++ ':' :: post →
      ':' ∉ pre → List.lookup "port" st.outputs = some (String.mk post) := by
    intro pre post hs hn
    rw [hl, port_colon_first _ pre post hs hn]
  refine ⟨?_, hfirst, ?_, ?_⟩
  · intro hn
    rw [hl, port_colon_absent _ hn]
  · intro pre hs hn
    exact hfirst pre [] hs hn
  · intro hm
    obtain ⟨pre, post, hs, hn⟩ := exists_first_colon _ hm
    exact ⟨pre, post, hs, hn, hfirst pre post hs hn⟩

/-- Witness for C4 on the sample run: the address "db.cluster.local:3307"
gives the port "3307". -/
theorem NewRDSStack_port_witness :
    List.lookup "port" sampleStack.outputs = some (String.mk ['3', '3', '0', '7']) :=
  (NewRDSStack_port sampleExternal sampleScope (some sampleProps) sampleStack
    (by decide)).2.1 "db.cluster.local".data ['3', '3', '0', '7'] (by decide) (by decide)

/-- C5 (as stated, refuted): the configuration `rejectedProps` has valid
capacity bounds and a non-empty parameter collection, yet the run ends in the
cluster constructor's panic and no cluster description with a parameter group
is built. -/
theorem NewRDSStack_parameterGroup_rejected :
    rejectedProps.AuroraCapacityUnitsMin ∈ [1, 2, 4, 8, 16, 32, 64, 128, 256, 384] ∧
    rejectedProps.AuroraCapacityUnitsMax ∈ [1, 2, 4, 8, 16, 32, 64, 128, 256, 384] ∧
    (∃ x l, rejectedProps.Parameters = some (x :: l)) ∧
    returns (Checked.NewRDSStack sampleExternal sampleScope (some rejectedProps)) = false ∧
    ¬ ∃ st c, Checked.NewRDSStack sampleExternal sampleScope (some rejectedProps) = .ok st ∧
        st.clusters = [c] ∧ c.props.ParameterGroup ≠ none := by
  have hrun : Checked.NewRDSStack sampleExternal sampleScope (some rejectedProps)
      = .error (.libraryPanic
          "maximum capacity must be greater than or equal to minimum capacity.") := by
    decide
  refine ⟨by decide, by decide, ⟨_, _, rfl⟩, by rw [hrun]; rfl, ?_⟩
  rintro ⟨st, c, h, -⟩
  rw [hrun] at h
  cases h

/-- C5 (amended): on every configuration on which `NewRDSStack` completes,
the cluster it describes carries a parameter group exactly when
`props.Parameters` is non-empty; for an empty or nil collection the
`ParameterGroup` field stays unset and no parameter group is constructed. -/
theorem NewRDSStack_parameterGroup (ext : External) (scope : Construct) (p : RDSStackProps)
    (st : Stack) (h : NewRDSStack ext scope (some p) = .ok st) :
    ∃ c, st.clusters = [c] ∧
      (c.props.ParameterGroup ≠ none ↔ ∃ x l, p.Parameters = some (x :: l)) ∧
      (st.parameterGroups ≠ [] ↔ ∃ x l, p.Parameters = some (x :: l)) ∧
      ((∃ x l, p.Parameters = some (x :: l)) →
        c.props.ParameterGroup = some ⟨"ParameterGroup", p, engine⟩ ∧
        st.parameterGroups = [⟨"ParameterGroup", p, engine⟩]) ∧
      (p.Parameters = none ∨ p.Parameters = some [] →
        c.props.ParameterGroup = none ∧ st.parameterGroups = []) := by
  obtain ⟨q, a, b, hq, ha, hb⟩ := NewRDSStack_ok_inv ext scope (some p) st h
  injection hq with hq
  subst hq
  obtain ⟨st2, c, h2, hc, -, hpg, hpgs, -, -⟩ := NewRDSStack_views ext scope p a b ha hb
  rw [h2] at h
  injection h with h
  subst h
  refine ⟨c, hc, ?_⟩
  rw [hpg, hpgs]
  rcases hP : p.Parameters with _ | _ | ⟨x, l⟩ <;> simp [len]

/-- Witness for C5 on the sample configuration, which has one parameter and
completes also under the library's checks. -/
theorem NewRDSStack_parameterGroup_witness :
    Checked.NewRDSStack sampleExternal sampleScope (some sampleProps) = .ok sampleStack ∧
    ∃ c, sampleStack.clusters = [c] ∧
      (c.props.ParameterGroup ≠ none ↔ ∃ x l, sampleProps.Parameters = some (x :: l)) ∧
      (sampleStack.parameterGroups ≠ [] ↔ ∃ x l, sampleProps.Parameters = some (x :: l)) ∧
      ((∃ x l, sampleProps.Parameters = some (x :: l)) →
        c.props.ParameterGroup = some ⟨"ParameterGroup", sampleProps, engine⟩ ∧
        sampleStack.parameterGroups = [⟨"ParameterGroup", sampleProps, engine⟩]) ∧
      (sampleProps.Parameters = none ∨ sampleProps.Parameters = some [] →
        c.props.ParameterGroup = none ∧ sampleStack.parameterGroups = []) :=
  ⟨by decide,
    NewRDSStack_parameterGroup sampleExternal sampleScope sampleProps sampleStack (by decide)⟩

/-- C6 (as stated, refuted): the configuration `rejectedProps` has valid
capacity bounds and a non-empty snapshot ARN, yet the run ends in the cluster
constructor's panic before any aspect is added. -/
theorem NewRDSStack_snapshotAspect_rejected :
    rejectedProps.AuroraCapacityUnitsMin ∈ [1, 2, 4, 8, 16, 32, 64, 128, 256, 384] ∧
    rejectedProps.AuroraCapacityUnitsMax ∈ [1, 2, 4, 8, 16, 32, 64, 128, 256, 384] ∧
    rejectedProps.RestoreSnapshotArn ≠ "" ∧
    returns (Checked.NewRDSStack sampleExternal sampleScope (some rejectedProps)) = false ∧
    ¬ ∃ st, Checked.NewRDSStack sampleExternal sampleScope (some rejectedProps) = .ok st ∧
        st.aspects ≠ [] := by
  have hrun : Checked.NewRDSStack sampleExternal sampleScope (some rejectedProps)
      = .error (.libraryPanic
          "maximum capacity must be greater than or equal to minimum capacity.") := by
    decide
  refine ⟨by decide, by decide, by decide, by rw [hrun]; rfl, ?_⟩
  rintro ⟨st, h, -⟩
  rw [hrun] at h
  cases h

/-- C6 (amended): on every configuration on which `NewRDSStack` completes, a
snapshot aspect is added to the cluster exactly when
`props.RestoreSnapshotArn` is a non-empty string; the aspect added carries
that ARN. -/
theorem NewRDSStack_snapshotAspect (ext : External) (scope : Construct) (p : RDSStackProps)
    (st : Stack) (h : NewRDSStack ext scope (some p) = .ok st) :
    ∃ c, st.clusters = [c] ∧
      (st.aspects ≠ [] ↔ p.RestoreSnapshotArn ≠ "") ∧
      (p.RestoreSnapshotArn ≠ "" → st.aspects = [(c, ⟨p.RestoreSnapshotArn⟩)]) ∧
      (p.RestoreSnapshotArn = "" → st.aspects = []) := by
  obtain ⟨q, a, b, hq, ha, hb⟩ := NewRDSStack_ok_inv ext scope (some p) st h
  injection hq with hq
  subst hq
  obtain ⟨st2, c, h2, hc, -, -, -, hasp, -⟩ := NewRDSStack_views ext scope p a b ha hb
  rw [h2] at h
  injection h with h
  subst h
  refine ⟨c, hc, ?_⟩
  rw [hasp]
  by_cases hr : p.RestoreSnapshotArn = "" <;> simp [hr]

/-- Witness for C6 on the sample configuration, which names a snapshot and
completes also under the library's checks. -/
theorem NewRDSStack_snapshotAspect_witness :
    Checked.NewRDSStack sampleExternal sampleScope (some sampleProps) = .ok sampleStack ∧
    ∃ c, sampleStack.clusters = [c] ∧
      (sampleStack.aspects ≠ [] ↔ sampleProps.RestoreSnapshotArn ≠ "") ∧
      (sampleProps.RestoreSnapshotArn ≠ "" →
        sampleStack.aspects = [(c, ⟨sampleProps.RestoreSnapshotArn⟩)]) ∧
      (sampleProps.RestoreSnapshotArn = "" → sampleStack.aspects = []) :=
  ⟨by decide,
    NewRDSStack_snapshotAspect sampleExternal sampleScope sampleProps sampleStack (by decide)⟩

/-- C7: whenever `NewRDSStack` completes, the stack publishes exactly the
five outputs host, port, adminusername, adminpasswordarn and clusterid, once
each and in this order, whatever the parameters and the snapshot ARN are; the
values are the endpoint hostname, the derived port, the username of the
credentials, the ARN of the cluster secret and the cluster identifier. -/
theorem NewRDSStack_five_outputs (ext : External) (scope : Construct)
    (props : Option RDSStackProps) (st : Stack)
    (h : NewRDSStack ext scope props = .ok st) :
    ∃ port : String,
      st.outputs =
        [("host", ext.Hostname), ("port", port), ("adminusername", ext.Username),
         ("adminpasswordarn", ext.SecretArn), ("clusterid", ext.ClusterIdentifier)] ∧
      (':' ∉ ext.SocketAddress.data → port = "3306") ∧
      (∀ pre post : List Char, ext.SocketAddress.data = pre ++ ':' :: post → ':' ∉ pre →
        port = String.mk post) ∧
      st.outputs.length = 5 ∧
      (st.outputs.map Prod.fst).Nodup := by
  have ho := NewRDSStack_outputs ext scope props st h
  refine ⟨_, ho, fun hn => port_colon_absent _ hn,
    fun pre post hs hn => port_colon_first _ pre post hs hn, ?_, ?_⟩
  · rw [ho]
    rfl
  · rw [ho]
    simp only [List.map_cons, List.map_nil]
    decide

/-- Witness for C7 on the sample run. -/
theorem NewRDSStack_five_outputs_witness :
    ∃ port : String,
      sampleStack.outputs =
        [("host", sampleExternal.Hostname), ("port", port),
         ("adminusername", sampleExternal.Username),
         ("adminpasswordarn", sampleExternal.SecretArn),
         ("clusterid", sampleExternal.ClusterIdentifier)] ∧
      (':' ∉ sampleExternal.SocketAddress.data → port = "3306") ∧
      (∀ pre post : List Char, sampleExternal.SocketAddress.data = pre ++ ':' :: post →
        ':' ∉ pre → port = String.mk post) ∧
      sampleStack.outputs.length = 5 ∧
      (sampleStack.outputs.map Prod.fst).Nodup :=
  NewRDSStack_five_outputs sampleExternal sampleScope (some sampleProps) sampleStack
    (by decide)

/-- C8: for a non-nil configuration the builder ends in a fatal error exactly
when the minimum or the maximum capacity is not a valid capacity value, and it
completes otherwise; two configurations with the same two capacity values are
fatal together, whatever their other fields and the library results are. -/
theorem NewRDSStack_fatal_iff (ext : External) (scope : Construct) (p : RDSStackProps) :
    (isFatal (NewRDSStack ext scope (some p)) = true ↔
      (p.AuroraCapacityUnitsMin ∉ [1, 2, 4, 8, 16, 32, 64, 128, 256, 384] ∨
       p.AuroraCapacityUnitsMax ∉ [1, 2, 4, 8, 16, 32, 64, 128, 256, 384])) ∧
    (returns (NewRDSStack ext scope (some p)) = true ↔
      (p.AuroraCapacityUnitsMin ∈ [1, 2, 4, 8, 16, 32, 64, 128, 256, 384] ∧
       p.AuroraCapacityUnitsMax ∈ [1, 2, 4, 8, 16, 32, 64, 128, 256, 384])) ∧
    (∀ (ext2 : External) (scope2 : Construct) (q : RDSStackProps),
      q.AuroraCapacityUnitsMin = p.AuroraCapacityUnitsMin →
      q.AuroraCapacityUnitsMax = p.AuroraCapacityUnitsMax →
      isFatal (NewRDSStack ext2 scope2 (some q)) = isFatal (NewRDSStack ext scope (some p))) := by
  have key : ∀ (e : External) (s : Construct) (q : RDSStackProps),
      (isFatal (NewRDSStack e s (some q)) = true ↔
        (q.AuroraCapacityUnitsMin ∉ [1, 2, 4, 8, 16, 32, 64, 128, 256, 384] ∨
         q.AuroraCapacityUnitsMax ∉ [1, 2, 4, 8, 16, 32, 64, 128, 256, 384])) ∧
      (returns (NewRDSStack e s (some q)) = true ↔
        (q.AuroraCapacityUnitsMin ∈ [1, 2, 4, 8, 16, 32, 64, 128, 256, 384] ∧
         q.AuroraCapacityUnitsMax ∈ [1, 2, 4, 8, 16, 32, 64, 128, 256, 384])) := by
    intro e s q
    by_cases hmin : q.AuroraCapacityUnitsMin ∈ [1, 2, 4, 8, 16, 32, 64, 128, 256, 384]
    · by_cases hmax : q.AuroraCapacityUnitsMax ∈ [1, 2, 4, 8, 16, 32, 64, 128, 256, 384]
      · rw [NewRDSStack_ok e s q _ _ (getACUFromInt_of_mem _ hmin)
          (getACUFromInt_of_mem _ hmax) _ rfl]
        simp only [isFatal, returns, hmin, hmax]
        simp
      · rw [NewRDSStack_max_error e s q _ _ (getACUFromInt_of_mem _ hmin)
          (getACUFromInt_of_not_mem _ hmax)]
        simp only [isFatal, returns, hmin, hmax]
        simp
    · rw [NewRDSStack_min_error e s q _ (getACUFromInt_of_not_mem _ hmin)]
      simp only [isFatal, returns, hmin]
      simp
  refine ⟨(key ext scope p).1, (key ext scope p).2, ?_⟩
  intro ext2 scope2 q h1 h2
  have hq := (key ext2 scope2 q).1
  have hp := (key ext scope p).1
  rw [h1, h2] at hq
  rw [Bool.eq_iff_iff, hq, hp]

/-- C9 (as stated, refuted): 8 and 2 are valid capacity values with the
minimum above the maximum, and the run on `rejectedProps` does not complete:
it ends in the panic of the library's cluster constructor. -/
theorem NewRDSStack_scaling_rejected :
    rejectedProps.AuroraCapacityUnitsMin ∈ [1, 2, 4, 8, 16, 32, 64, 128, 256, 384] ∧
    rejectedProps.AuroraCapacityUnitsMax ∈ [1, 2, 4, 8, 16, 32, 64, 128, 256, 384] ∧
    rejectedProps.AuroraCapacityUnitsMin > rejectedProps.AuroraCapacityUnitsMax ∧
    Checked.NewRDSStack sampleExternal sampleScope (some rejectedProps)
      = .error (.libraryPanic
          "maximum capacity must be greater than or equal to minimum capacity.") ∧
    ¬ ∃ st, Checked.NewRDSStack sampleExternal sampleScope (some rejectedProps) = .ok st := by
  have hrun : Checked.NewRDSStack sampleExternal sampleScope (some rejectedProps)
      = .error (.libraryPanic
          "maximum capacity must be greater than or equal to minimum capacity.") := by
    decide
  refine ⟨by decide, by decide, by decide, hrun, ?_⟩
  rintro ⟨st, h⟩
  rw [hrun] at h
  cases h

/-- C9 (amended): for every pair of valid capacity values, on every run that
completes the scaling options of the cluster carry `getACUFromInt` of the
minimum as `MinCapacity` and of the maximum as `MaxCapacity`, unswapped, and
the minimum is at most the maximum.  The builder has no check of its own
that the minimum does not exceed the maximum: the run never ends in its fatal
error, and for a minimum above the maximum it does not complete, because the
library's cluster constructor rejects the pair. -/
theorem NewRDSStack_scaling (ext : External) (scope : Construct) (p : RDSStackProps)
    (hmin : p.AuroraCapacityUnitsMin ∈ [1, 2, 4, 8, 16, 32, 64, 128, 256, 384])
    (hmax : p.AuroraCapacityUnitsMax ∈ [1, 2, 4, 8, 16, 32, 64, 128, 256, 384]) :
    (∀ st, Checked.NewRDSStack ext scope (some p) = .ok st →
      p.AuroraCapacityUnitsMin ≤ p.AuroraCapacityUnitsMax ∧
      ∃ c, st.clusters = [c] ∧
        getACUFromInt p.AuroraCapacityUnitsMin = .ok c.props.Scaling.MinCapacity ∧
        getACUFromInt p.AuroraCapacityUnitsMax = .ok c.props.Scaling.MaxCapacity ∧
        c.props.Scaling.AutoPause = Duration_Minutes p.AutoPauseDurationMinutes) ∧
    (p.AuroraCapacityUnitsMin > p.AuroraCapacityUnitsMax →
      returns (Checked.NewRDSStack ext scope (some p)) = false) ∧
    isFatal (Checked.NewRDSStack ext scope (some p)) = false := by
  have ha := getACUFromInt_of_mem _ hmin
  have hb := getACUFromInt_of_mem _ hmax
  have hle : ∀ st, Checked.NewRDSStack ext scope (some p) = .ok st →
      p.AuroraCapacityUnitsMin ≤ p.AuroraCapacityUnitsMax :=
    fun st h => checked_ok_le ext scope p hmin hmax st h
  refine ⟨?_, ?_, checked_not_fatal ext scope p hmin hmax⟩
  · intro st h
    refine ⟨hle st h, ?_⟩
    have hu := checked_ok_unchecked ext scope (some p) st h
    obtain ⟨st2, c, h2, hc, hs, -, -, -, -⟩ := NewRDSStack_views ext scope p _ _ ha hb
    rw [h2] at hu
    injection hu with hu
    subst hu
    refine ⟨c, hc, ?_, ?_, ?_⟩
    · rw [ha, hs]
    · rw [hb, hs]
    · rw [hs]
  · intro hgt
    cases hr : Checked.NewRDSStack ext scope (some p) with
    | error e => rfl
    | ok st =>
      have := hle st hr
      omega

/-- Witness for C9 on the sample configuration (minimum 2, maximum 8), whose
run completes under the library's checks. -/
theorem NewRDSStack_scaling_witness :
    Checked.NewRDSStack sampleExternal sampleScope (some sampleProps) = .ok sampleStack ∧
    (∀ st, Checked.NewRDSStack sampleExternal sampleScope (some sampleProps) = .ok st →
      sampleProps.AuroraCapacityUnitsMin ≤ sampleProps.AuroraCapacityUnitsMax ∧
      ∃ c, st.clusters = [c] ∧
        getACUFromInt sampleProps.AuroraCapacityUnitsMin = .ok c.props.Scaling.MinCapacity ∧
        getACUFromInt sampleProps.AuroraCapacityUnitsMax = .ok c.props.Scaling.MaxCapacity ∧
        c.props.Scaling.AutoPause = Duration_Minutes sampleProps.AutoPauseDurationMinutes) ∧
    (sampleProps.AuroraCapacityUnitsMin > sampleProps.AuroraCapacityUnitsMax →
      returns (Checked.NewRDSStack sampleExternal sampleScope (some sampleProps)) = false) ∧
    isFatal (Checked.NewRDSStack sampleExternal sampleScope (some sampleProps)) = false :=
  ⟨by decide,
    NewRDSStack_scaling sampleExternal sampleScope sampleProps (by decide) (by decide)⟩

/-- C10: for a nil configuration `NewRDSStack` does not complete: the guard
covers only the copy of `props.StackProps`, the read of `props.VpcID` panics,
and no stack is returned. -/
theorem NewRDSStack_nil_props (ext : External) (scope : Construct) :
    NewRDSStack ext scope none = .error .nilPointerDereference ∧
    returns (NewRDSStack ext scope none) = false ∧
    ¬ ∃ st, NewRDSStack ext scope none = .ok st := by
  refine ⟨rfl, rfl, ?_⟩
  rintro ⟨st, h⟩
  cases h

end RDS
